import Mathlib

/-
Verification development for the command-construction core of the
hyperglass looking-glass (src/hyperglass/command/construct.py).

The two builders `frr` (API mode) and `ssh` (direct-command mode) are
shallowly embedded as pure Lean functions.  Python exceptions that can
escape a builder are modelled with `Except PyExc`; a normal Python
`return` of a result tuple becomes `Except.ok`.  Regular-expression
matching against the three fixed community patterns and the trivial
AS-path pattern is embedded as explicit string predicates, including the
Python `re` semantics of `$` (which also matches just before one
trailing newline).  `json.dumps` of the API query dict is modelled as a
structured record `QueryJson` rather than a serialized string; the
claims under study only inspect its fields.
-/

/-- Python exceptions that can escape the builders.  `unboundLocal`
models `UnboundLocalError` (a local variable referenced before
assignment), `typeError` models the `TypeError` raised when a class
`__init__` returns a non-None value, `keyError` models a failed dict
lookup, and `valueError` and `indexError` model `str.format` failures. -/
inductive PyExc where
  | unboundLocal (name : String)
  | typeError (msg : String)
  | keyError (key : String)
  | valueError (msg : String)
  | indexError (msg : String)
deriving DecidableEq, Repr

deriving instance DecidableEq for Except

/-- Device profile record, the fields read out of `device` at the top of
both builders (`d_address`, `d_src_addr_ipv4`, `d_src_addr_ipv6`,
`d_location`, `d_name`, `d_port`, `d_type`). -/
structure Device where
  address : String
  src_addr_ipv4 : String
  src_addr_ipv6 : String
  location : String
  name : String
  port : String
  vtype : String
deriving DecidableEq, Repr

/-- The API-mode query object; the source builds it with `json.dumps` on
a dict with keys `cmd`, `afi`, `target` and (for ping/traceroute)
`source`.  We keep it structured. -/
structure QueryJson where
  cmd : String
  afi : String
  target : String
  source : Option String
deriving DecidableEq, Repr

/-- Result tuple of the API builder `frr`:
`(message, status_code, device_address, query)`. -/
structure FrrOut where
  msg : String
  status : Nat
  addr : String
  query : QueryJson
deriving DecidableEq, Repr

/-- Result tuple of the direct-command builder `ssh`:
`(message, status_code, device_address, vendor_type, command)`.  On the
failure branches of the source the third, fourth and fifth slots
actually carry other data; the field names follow the success branch. -/
structure SshOut where
  msg : String
  status : Nat
  addr : String
  vendor : String
  command : String
deriving DecidableEq, Repr

/-- The `codes` class: the three status constants. -/
structure codes where
  success : Nat
  warning : Nat
  danger : Nat
deriving DecidableEq, Repr

/-- `code = codes()` with success 200, warning 405, danger 415. -/
def code : codes := ⟨200, 405, 415⟩

/-- One vendor entry of the commands TOML: the three template groups
`dual`, `ipv4`, `ipv6`, each mapping a query-type name to a format
string (`commands[type][0]["dual"]` and friends in the source). -/
structure CommandGroups where
  dual : List (String × String)
  ipv4 : List (String × String)
  ipv6 : List (String × String)
deriving DecidableEq, Repr

/-- The command template store: vendor type tag to template groups. -/
def TemplateStore : Type := List (String × CommandGroups)

/-- Split a character list on a separator character; always returns at
least one (possibly empty) part, like Python `str.split(sep)`. -/
def splitOnChar (sep : Char) : List Char → List (List Char)
  | [] => [[]]
  | c :: rest =>
    match splitOnChar sep rest with
    | [] => [[]]
    | g :: gs => if c = sep then [] :: g :: gs else (c :: g) :: gs

/-- Nonempty and all decimal digits. -/
def isDigits (l : List Char) : Bool := !l.isEmpty && l.all Char.isDigit

/-- Decimal value of a digit list. -/
def decValue (l : List Char) : Nat :=
  l.foldl (fun acc c => acc * 10 + (c.toNat - 48)) 0

/-- A run of `lo` to `hi` decimal digits, as in the bounded `[0-9]{lo,hi}`
pieces of the community regexes. -/
def digitRun (lo hi : Nat) (l : List Char) : Bool :=
  decide (lo ≤ l.length) && decide (l.length ≤ hi) && l.all Char.isDigit

/-- New-format extended community syntax `ASN:NN` with a 0-5 digit ASN
and a 1-5 digit NN (regex `([0-9]{0,5})\:([0-9]{1,5})` anchored at both
ends). -/
def newFormatCore (l : List Char) : Bool :=
  match splitOnChar ':' l with
  | [asn, nn] => digitRun 0 5 asn && digitRun 1 5 nn
  | _ => false

/-- 32-bit plain community syntax: 1-10 digits, no colon
(regex `[0-9]{1,10}` anchored at both ends). -/
def thirtyTwoBitCore (l : List Char) : Bool := digitRun 1 10 l

/-- RFC 8092 large community syntax: three colon-separated groups of
1-10 digits (regex `([0-9]{1,10})\:([0-9]{1,10})\:[0-9]{1,10}` anchored
at both ends). -/
def largeCommunityCore (l : List Char) : Bool :=
  match splitOnChar ':' l with
  | [a, b, c] => digitRun 1 10 a && digitRun 1 10 b && digitRun 1 10 c
  | _ => false

/-- A target matches one of the three community syntaxes exactly. -/
def communityMatch (l : List Char) : Bool :=
  newFormatCore l || thirtyTwoBitCore l || largeCommunityCore l

/-- The string ends with a newline character. -/
def endsNL (l : List Char) : Bool :=
  match l.getLast? with
  | some c => c == '\n'
  | none => false

/-- Python `re.match` with a pattern ending in `$`: the pattern must
consume the whole string, or the whole string up to a single trailing
newline (`$` in Python also matches just before a final newline). -/
def matchEOL (core : List Char → Bool) (l : List Char) : Bool :=
  core l || (match l.getLast? with
             | some c => c == '\n' && core l.dropLast
             | none => false)

/-- `re.match("^([0-9]{0,5})\:([0-9]{1,5})$", s)` as a predicate. -/
def pyNewFormat (s : String) : Bool := matchEOL newFormatCore s.data

/-- `re.match("^[0-9]{1,10}$", s)` as a predicate. -/
def pyThirtyTwoBit (s : String) : Bool := matchEOL thirtyTwoBitCore s.data

/-- `re.match("^([0-9]{1,10})\:([0-9]{1,10})\:[0-9]{1,10}$", s)`. -/
def pyLargeCommunity (s : String) : Bool := matchEOL largeCommunityCore s.data

/-- IP address version, as reported by `IPNetwork(...).ip.version`. -/
inductive IPVersion where
  | v4
  | v6
deriving DecidableEq, Repr

/-- A decimal IPv4 octet: 1-3 digits with value at most 255. -/
def isOctet (l : List Char) : Bool :=
  isDigits l && decide (l.length ≤ 3) && decide (decValue l ≤ 255)

/-- Dotted-quad IPv4 address text. -/
def isIPv4Chars (l : List Char) : Bool :=
  match splitOnChar '.' l with
  | [a, b, c, d] => isOctet a && isOctet b && isOctet c && isOctet d
  | _ => false

/-- Hexadecimal digit. -/
def isHexChar (c : Char) : Bool :=
  c.isDigit || (decide ('a' ≤ c) && decide (c ≤ 'f')) || (decide ('A' ≤ c) && decide (c ≤ 'F'))

/-- An IPv6 hextet: 1-4 hexadecimal digits. -/
def isHexGroup (l : List Char) : Bool :=
  !l.isEmpty && decide (l.length ≤ 4) && l.all isHexChar

/-- Split at the first occurrence of a double colon, if any. -/
def splitAtDoubleColon : List Char → Option (List Char × List Char)
  | [] => none
  | [_] => none
  | c1 :: c2 :: rest =>
    if c1 = ':' ∧ c2 = ':' then some ([], rest)
    else
      match splitAtDoubleColon (c2 :: rest) with
      | some (b, a) => some (c1 :: b, a)
      | none => none

/-- Number of address groups in a colon-separated run of hextets; the
empty run counts zero groups. -/
def hexGroupCount (l : List Char) : Option Nat :=
  if l.isEmpty then some 0
  else
    let parts := splitOnChar ':' l
    if parts.all isHexGroup then some parts.length else none

/-- Like `hexGroupCount` but the final part may be an embedded dotted
quad, which counts as two groups. -/
def hexGroupCountV4Tail (l : List Char) : Option Nat :=
  if l.isEmpty then some 0
  else
    let parts := splitOnChar ':' l
    match parts.reverse with
    | [] => none
    | lastp :: revInit =>
      if isIPv4Chars lastp && revInit.all isHexGroup then some (revInit.length + 2)
      else if parts.all isHexGroup then some parts.length
      else none

/-- RFC 4291 IPv6 address text: eight groups, or a single `::`
compression standing for at least one zero group, with an optional
embedded dotted-quad tail. -/
def isIPv6Chars (l : List Char) : Bool :=
  match splitAtDoubleColon l with
  | some (b, a) =>
    match hexGroupCount b, hexGroupCountV4Tail a with
    | some nb, some na => decide (nb + na ≤ 7)
    | _, _ => false
  | none =>
    match hexGroupCountV4Tail l with
    | some n => decide (n = 8)
    | none => false

/-- Version of a bare address text: IPv4 if a dotted quad, else IPv6 if
valid IPv6 text, else no parse. -/
def versionOfAddr (l : List Char) : Option IPVersion :=
  if isIPv4Chars l then some IPVersion.v4
  else if isIPv6Chars l then some IPVersion.v6
  else none

/-- Modelled from the spec: the external `netaddr` library's
`IPNetwork(target).ip.version`, which is not part of this repository.
Per the spec it "must accept both bare addresses and CIDR-notated
prefixes and must classify version strictly as 4 or 6", raising on any
malformed string; `none` stands for the raised `AddrFormatError`. -/
def ipNetworkVersion (s : String) : Option IPVersion :=
  match splitOnChar '/' s.data with
  | [addr] => versionOfAddr addr
  | [addr, pfx] =>
    match versionOfAddr addr with
    | some IPVersion.v4 =>
      if isDigits pfx && decide (decValue pfx ≤ 32) then some IPVersion.v4 else none
    | some IPVersion.v6 =>
      if isDigits pfx && decide (decValue pfx ≤ 128) then some IPVersion.v6 else none
    | none => none
  | _ => none

/-- Opening curly brace character. -/
def lcurly : Char := Char.ofNat 123

/-- Closing curly brace character. -/
def rcurly : Char := Char.ofNat 125

/-- Worker for `pyFormat`.  The second argument is `none` outside a
replacement field and `some acc` while scanning a field name (collected
in reverse in `acc`). -/
def fmtGo (args : List (String × String)) :
    List Char → Option (List Char) → Except PyExc (List Char)
  | [], none => Except.ok []
  | [], some _ => Except.error (PyExc.valueError "expected brace in format string")
  | c :: rest, none =>
    if c = lcurly then
      match rest with
      | c2 :: rest2 =>
        if c2 = lcurly then
          match fmtGo args rest2 none with
          | Except.ok s => Except.ok (c :: s)
          | Except.error e => Except.error e
        else fmtGo args (c2 :: rest2) (some [])
      | [] => Except.error (PyExc.valueError "single brace in format string")
    else if c = rcurly then
      match rest with
      | c2 :: rest2 =>
        if c2 = rcurly then
          match fmtGo args rest2 none with
          | Except.ok s => Except.ok (c :: s)
          | Except.error e => Except.error e
        else Except.error (PyExc.valueError "single brace in format string")
      | [] => Except.error (PyExc.valueError "single brace in format string")
    else
      match fmtGo args rest none with
      | Except.ok s => Except.ok (c :: s)
      | Except.error e => Except.error e
  | c :: rest, some acc =>
    if c = rcurly then
      if acc.isEmpty then Except.error (PyExc.indexError "no positional arguments")
      else
        match List.lookup (String.mk acc.reverse) args with
        | some v =>
          match fmtGo args rest none with
          | Except.ok s => Except.ok (v.data ++ s)
          | Except.error e => Except.error e
        | none => Except.error (PyExc.keyError (String.mk acc.reverse))
    else fmtGo args rest (some (c :: acc))

/-- Python `template.format(**args)` restricted to plain named
replacement fields, which is all the command templates use.  A field
name absent from `args` raises `KeyError`, an empty field raises
`IndexError` (no positional arguments are passed), an unbalanced brace
raises `ValueError`. -/
def pyFormat (template : String) (args : List (String × String)) : Except PyExc String :=
  match fmtGo args template.data none with
  | Except.ok l => Except.ok (String.mk l)
  | Except.error e => Except.error e

/-- The API builder `frr(cmd, ipprefix, device)` (the source's parameter
`ipprefix` is rendered `target` here).  Each Python `return` of a result
tuple is an `Except.ok`; a raised exception is an `Except.error`.  In
the `bgp_route` and ping/traceroute `except:` handlers and in the final
`else`, the source logs an f-string that references the local variable
`query`, which is unbound on those paths (it is only assigned after a
successful parse or inside the community/aspath branches), so Python
raises `UnboundLocalError` there before reaching the `return`. -/
def frr (cmd target : String) (device : Device) : Except PyExc FrrOut :=
  if cmd = "bgp_community" then
    -- query is bound before the pattern checks, so every branch below
    -- returns normally, the invalid-format branch included
    if pyNewFormat target then
      Except.ok ⟨target ++ " matched new-format community.", code.success, device.address,
        ⟨cmd, "dual", target, none⟩⟩
    else if pyThirtyTwoBit target then
      Except.ok ⟨target ++ " matched 32 bit community.", code.success, device.address,
        ⟨cmd, "dual", target, none⟩⟩
    else if pyLargeCommunity target then
      Except.ok ⟨target ++ " matched large community.", code.success, device.address,
        ⟨cmd, "dual", target, none⟩⟩
    else
      Except.ok ⟨target ++ " is an invalid BGP Community Format.", code.danger, device.address,
        ⟨cmd, "dual", target, none⟩⟩
  else if cmd = "bgp_aspath" then
    -- re.match(".*", target) succeeds for every string, the empty one
    -- included, so the invalid branch of the source is unreachable
    Except.ok ⟨target ++ " matched AS_PATH regex.", code.success, device.address,
      ⟨cmd, "dual", target, none⟩⟩
  else if cmd = "bgp_route" then
    match ipNetworkVersion target with
    | some IPVersion.v4 =>
      Except.ok ⟨target ++ " is a valid IPv4 Adddress.", code.success, device.address,
        ⟨cmd, "ipv4", target, none⟩⟩
    | some IPVersion.v6 =>
      Except.ok ⟨target ++ " is a valid IPv6 Adddress.", code.success, device.address,
        ⟨cmd, "ipv6", target, none⟩⟩
    | none => Except.error (PyExc.unboundLocal "query")
  else if cmd = "ping" ∨ cmd = "traceroute" then
    match ipNetworkVersion target with
    | some IPVersion.v4 =>
      Except.ok ⟨target ++ " is a valid IPv4 Adddress.", code.success, device.address,
        ⟨cmd, "ipv4", target, some device.src_addr_ipv4⟩⟩
    | some IPVersion.v6 =>
      Except.ok ⟨target ++ " is a valid IPv6 Adddress.", code.success, device.address,
        ⟨cmd, "ipv6", target, some device.src_addr_ipv6⟩⟩
    | none => Except.error (PyExc.unboundLocal "query")
  else Except.error (PyExc.unboundLocal "query")

/-- Dispatch part of the direct-command builder, once the vendor's
template groups `c` have been resolved.  The `bgp_route` and
ping/traceroute branches run their template lookup and substitution
inside the source's bare `try: ... except:`, so any error there (a
failed parse, a missing template key, a bad placeholder) is converted
into the "invalid IP Address" danger tuple; the community and aspath
branches run their lookup and substitution outside any `try`, so those
errors propagate. -/
def sshBody (c : CommandGroups) (cmd target : String) (device : Device) :
    Except PyExc SshOut :=
  if cmd = "bgp_community" then
    if pyNewFormat target then
      match List.lookup cmd c.dual with
      | some mc =>
        match pyFormat mc [("target", target)] with
        | Except.ok command =>
          Except.ok ⟨target ++ " matched new-format community.", code.success,
            device.address, device.vtype, command⟩
        | Except.error e => Except.error e
      | none => Except.error (PyExc.keyError cmd)
    else if pyThirtyTwoBit target then
      match List.lookup cmd c.dual with
      | some mc =>
        match pyFormat mc [("target", target)] with
        | Except.ok command =>
          Except.ok ⟨target ++ " matched 32 bit community.", code.success,
            device.address, device.vtype, command⟩
        | Except.error e => Except.error e
      | none => Except.error (PyExc.keyError cmd)
    else if pyLargeCommunity target then
      match List.lookup cmd c.dual with
      | some mc =>
        match pyFormat mc [("target", target)] with
        | Except.ok command =>
          Except.ok ⟨target ++ " matched large community.", code.success,
            device.address, device.vtype, command⟩
        | Except.error e => Except.error e
      | none => Except.error (PyExc.keyError cmd)
    else
      Except.ok ⟨target ++ " is an invalid BGP Community Format.", code.danger,
        device.name, cmd, target⟩
  else if cmd = "bgp_aspath" then
    -- re.match(".*", target) always succeeds
    match List.lookup cmd c.dual with
    | some mc =>
      match pyFormat mc [("target", target)] with
      | Except.ok command =>
        Except.ok ⟨target ++ " matched AS_PATH regex.", code.success,
          device.address, device.vtype, command⟩
      | Except.error e => Except.error e
    | none => Except.error (PyExc.keyError cmd)
  else if cmd = "bgp_route" then
    match ipNetworkVersion target with
    | some IPVersion.v4 =>
      match List.lookup cmd c.ipv4 with
      | some mc =>
        match pyFormat mc [("target", target)] with
        | Except.ok command =>
          Except.ok ⟨target ++ " is a valid IPv4 Adddress.", code.success,
            device.address, device.vtype, command⟩
        | Except.error _ =>
          Except.ok ⟨target ++ " is an invalid IP Address.", code.danger,
            device.name, cmd, target⟩
      | none =>
        Except.ok ⟨target ++ " is an invalid IP Address.", code.danger,
          device.name, cmd, target⟩
    | some IPVersion.v6 =>
      match List.lookup cmd c.ipv6 with
      | some mc =>
        match pyFormat mc [("target", target)] with
        | Except.ok command =>
          Except.ok ⟨target ++ " is a valid IPv6 Adddress.", code.success,
            device.address, device.vtype, command⟩
        | Except.error _ =>
          Except.ok ⟨target ++ " is an invalid IP Address.", code.danger,
            device.name, cmd, target⟩
      | none =>
        Except.ok ⟨target ++ " is an invalid IP Address.", code.danger,
          device.name, cmd, target⟩
    | none =>
      Except.ok ⟨target ++ " is an invalid IP Address.", code.danger,
        device.name, cmd, target⟩
  else if cmd = "ping" ∨ cmd = "traceroute" then
    match ipNetworkVersion target with
    | some IPVersion.v4 =>
      match List.lookup cmd c.ipv4 with
      | some mc =>
        match pyFormat mc [("target", target), ("src_addr_ipv4", device.src_addr_ipv4)] with
        | Except.ok command =>
          Except.ok ⟨target ++ " is a valid IPv4 Adddress.", code.success,
            device.address, device.vtype, command⟩
        | Except.error _ =>
          Except.ok ⟨target ++ " is an invalid IP Address.", code.danger,
            device.name, cmd, target⟩
      | none =>
        Except.ok ⟨target ++ " is an invalid IP Address.", code.danger,
          device.name, cmd, target⟩
    | some IPVersion.v6 =>
      match List.lookup cmd c.ipv6 with
      | some mc =>
        match pyFormat mc [("target", target), ("src_addr_ipv6", device.src_addr_ipv6)] with
        | Except.ok command =>
          Except.ok ⟨target ++ " is a valid IPv6 Adddress.", code.success,
            device.address, device.vtype, command⟩
        | Except.error _ =>
          Except.ok ⟨target ++ " is an invalid IP Address.", code.danger,
            device.name, cmd, target⟩
      | none =>
        Except.ok ⟨target ++ " is an invalid IP Address.", code.danger,
          device.name, cmd, target⟩
    | none =>
      Except.ok ⟨target ++ " is an invalid IP Address.", code.danger,
        device.name, cmd, target⟩
  else
    Except.ok ⟨"Command " ++ cmd ++ " not found.", code.danger, device.name, cmd, target⟩

/-- The direct-command builder `ssh(cmd, ipprefix, device)`.  The nested
class `command` first looks the device's vendor type up in the template
store; when the type is absent its `__init__` executes a `return` of the
danger tuple, and returning a non-None value from `__init__` makes
Python raise `TypeError`, so the tuple is never delivered. -/
def ssh (store : TemplateStore) (cmd target : String) (device : Device) :
    Except PyExc SshOut :=
  match List.lookup device.vtype store with
  | some c => sshBody c cmd target device
  | none => Except.error (PyExc.typeError "init returned non-None")

/-- Status code of an API builder outcome, when it returned a tuple. -/
def statusOf : Except PyExc FrrOut → Option Nat
  | Except.ok r => some r.status
  | Except.error _ => none

/-- A sample device profile used by the concrete evaluations below. -/
def sampleDevice : Device :=
  ⟨"10.0.0.1", "192.0.2.1", "2001:db8::ff", "dc1", "router1", "22", "frr"⟩

/-- A device whose vendor type has no entry in the sample store. -/
def iosDevice : Device :=
  ⟨"10.0.0.2", "192.0.2.2", "2001:db8::fe", "dc2", "router2", "22", "ios"⟩

/-- Sample template groups for the vendor type of `sampleDevice`. -/
def frrGroups : CommandGroups :=
  ⟨[("bgp_community", "show bgp community {target}"),
    ("bgp_aspath", "show bgp regexp {target}")],
   [("bgp_route", "show ip bgp {target}"),
    ("ping", "ping -c 5 -I {src_addr_ipv4} {target}"),
    ("traceroute", "traceroute -s {src_addr_ipv4} {target}")],
   [("bgp_route", "show bgp ipv6 unicast {target}"),
    ("ping", "ping6 -c 5 -I {src_addr_ipv6} {target}"),
    ("traceroute", "traceroute6 -s {src_addr_ipv6} {target}")]⟩

/-- A sample template store holding only the `frr` vendor type. -/
def sampleStore : TemplateStore := [("frr", frrGroups)]

/-- Template groups with every query-type entry missing. -/
def emptyGroups : CommandGroups := ⟨[], [], []⟩

/-- A store whose `frr` entry has no query-type templates at all. -/
def storeEmpty : TemplateStore := [("frr", emptyGroups)]

/-- The fifth slot of a direct-command success tuple is a rendered
command: the substitution of the target (and, for ping/traceroute, the
matching source address of the device) into the vendor's template for
this query type, taken from one of its three groups — exactly the five
`mc.format(...)` calls the source can reach. -/
def renderedCommand (g : CommandGroups) (cmd s : String) (d : Device) (out : String) : Prop :=
  (∃ mc, List.lookup cmd g.dual = some mc
    ∧ pyFormat mc [("target", s)] = Except.ok out)
  ∨ (∃ mc, List.lookup cmd g.ipv4 = some mc
    ∧ pyFormat mc [("target", s)] = Except.ok out)
  ∨ (∃ mc, List.lookup cmd g.ipv6 = some mc
    ∧ pyFormat mc [("target", s)] = Except.ok out)
  ∨ (∃ mc, List.lookup cmd g.ipv4 = some mc
    ∧ pyFormat mc [("target", s), ("src_addr_ipv4", d.src_addr_ipv4)] = Except.ok out)
  ∨ (∃ mc, List.lookup cmd g.ipv6 = some mc
    ∧ pyFormat mc [("target", s), ("src_addr_ipv6", d.src_addr_ipv6)] = Except.ok out)

/-- The direct-command failure tuple produced for an invalid community
target, used by the concrete instantiations below. -/
def c4out : SshOut :=
  ⟨"abc is an invalid BGP Community Format.", 415, "router1", "bgp_community", "abc"⟩

/-- The direct-command success tuple for a `bgp_route` query on
`1.2.3.4` against the sample store, used by the concrete instantiations
below. -/
def c4ok : SshOut :=
  ⟨"1.2.3.4 is a valid IPv4 Adddress.", 200, "10.0.0.1", "frr", "show ip bgp 1.2.3.4"⟩

/-- The API success tuple for the community target `1:2`, used by the
concrete instantiations below. -/
def c10out : FrrOut :=
  ⟨"1:2 matched new-format community.", 200, "10.0.0.1",
    ⟨"bgp_community", "dual", "1:2", none⟩⟩

/-- Unfolding of the API builder at query type `bgp_community`. -/
lemma frr_community_eq (s : String) (d : Device) :
    frr "bgp_community" s d =
      (if pyNewFormat s then
        Except.ok ⟨s ++ " matched new-format community.", code.success, d.address,
          ⟨"bgp_community", "dual", s, none⟩⟩
      else if pyThirtyTwoBit s then
        Except.ok ⟨s ++ " matched 32 bit community.", code.success, d.address,
          ⟨"bgp_community", "dual", s, none⟩⟩
      else if pyLargeCommunity s then
        Except.ok ⟨s ++ " matched large community.", code.success, d.address,
          ⟨"bgp_community", "dual", s, none⟩⟩
      else
        Except.ok ⟨s ++ " is an invalid BGP Community Format.", code.danger, d.address,
          ⟨"bgp_community", "dual", s, none⟩⟩) := rfl

/-- Unfolding of the API builder at query type `bgp_aspath`. -/
lemma frr_aspath_eq (s : String) (d : Device) :
    frr "bgp_aspath" s d =
      Except.ok ⟨s ++ " matched AS_PATH regex.", code.success, d.address,
        ⟨"bgp_aspath", "dual", s, none⟩⟩ := rfl

/-- Unfolding of the API builder at query type `bgp_route`. -/
lemma frr_route_eq (s : String) (d : Device) :
    frr "bgp_route" s d =
      (match ipNetworkVersion s with
      | some IPVersion.v4 =>
        Except.ok ⟨s ++ " is a valid IPv4 Adddress.", code.success, d.address,
          ⟨"bgp_route", "ipv4", s, none⟩⟩
      | some IPVersion.v6 =>
        Except.ok ⟨s ++ " is a valid IPv6 Adddress.", code.success, d.address,
          ⟨"bgp_route", "ipv6", s, none⟩⟩
      | none => Except.error (PyExc.unboundLocal "query")) := rfl

/-- Unfolding of the API builder at query type `ping`. -/
lemma frr_ping_eq (s : String) (d : Device) :
    frr "ping" s d =
      (match ipNetworkVersion s with
      | some IPVersion.v4 =>
        Except.ok ⟨s ++ " is a valid IPv4 Adddress.", code.success, d.address,
          ⟨"ping", "ipv4", s, some d.src_addr_ipv4⟩⟩
      | some IPVersion.v6 =>
        Except.ok ⟨s ++ " is a valid IPv6 Adddress.", code.success, d.address,
          ⟨"ping", "ipv6", s, some d.src_addr_ipv6⟩⟩
      | none => Except.error (PyExc.unboundLocal "query")) := rfl

/-- Unfolding of the API builder at query type `traceroute`. -/
lemma frr_traceroute_eq (s : String) (d : Device) :
    frr "traceroute" s d =
      (match ipNetworkVersion s with
      | some IPVersion.v4 =>
        Except.ok ⟨s ++ " is a valid IPv4 Adddress.", code.success, d.address,
          ⟨"traceroute", "ipv4", s, some d.src_addr_ipv4⟩⟩
      | some IPVersion.v6 =>
        Except.ok ⟨s ++ " is a valid IPv6 Adddress.", code.success, d.address,
          ⟨"traceroute", "ipv6", s, some d.src_addr_ipv6⟩⟩
      | none => Except.error (PyExc.unboundLocal "query")) := rfl

/-- Resolving the vendor lookup of the direct-command builder. -/
lemma ssh_eq (store : TemplateStore) (cmd s : String) (d : Device)
    (g : CommandGroups) (hg : List.lookup d.vtype store = some g) :
    ssh store cmd s d = sshBody g cmd s d := by
  unfold ssh
  rw [hg]

/-- Matching three `$`-anchored patterns and taking the disjunction is
the same as matching their plain disjunction on the string, or on the
string with its single trailing newline removed. -/
lemma matchEOL_or3 (c1 c2 c3 : List Char → Bool) (l : List Char) :
    (matchEOL c1 l || matchEOL c2 l || matchEOL c3 l)
      = ((c1 l || c2 l || c3 l)
          || (endsNL l && (c1 l.dropLast || c2 l.dropLast || c3 l.dropLast))) := by
  unfold matchEOL endsNL
  cases hl : l.getLast? with
  | none => simp
  | some c =>
    cases hc : (c == '\n') with
    | false => simp [hc]
    | true =>
      simp only [hc, Bool.true_and]
      cases c1 l <;> cases c2 l <;> cases c3 l <;>
        cases c1 l.dropLast <;> cases c2 l.dropLast <;> cases c3 l.dropLast <;> rfl

/-- Every tuple actually returned by the API builder has status 200 or
415 and carries the device's address in its third slot. -/
lemma frr_ok_inv (cmd s : String) (d : Device) (r : FrrOut)
    (h : frr cmd s d = Except.ok r) :
    (r.status = 200 ∨ r.status = 415) ∧ r.addr = d.address := by
  unfold frr at h
  repeat' split at h
  all_goals first
    | exact Except.noConfusion h
    | (injection h with h2; subst h2; exact ⟨Or.inl rfl, rfl⟩)
    | (injection h with h2; subst h2; exact ⟨Or.inr rfl, rfl⟩)

/-- Every tuple actually returned by the direct-command builder either
has status 200 with the device address third, the vendor type fourth
and a rendered template substitution fifth, or has status 415 with the
device name third, the query type fourth and the raw target fifth. -/
lemma sshBody_ok_inv (c : CommandGroups) (cmd s : String) (d : Device) (r : SshOut)
    (h : sshBody c cmd s d = Except.ok r) :
    (r.status = 200 ∧ r.addr = d.address ∧ r.vendor = d.vtype
      ∧ renderedCommand c cmd s d r.command)
      ∨ (r.status = 415 ∧ r.addr = d.name ∧ r.vendor = cmd ∧ r.command = s) := by
  unfold sshBody at h
  repeat' split at h
  all_goals first
    | exact Except.noConfusion h
    | (injection h with h2; subst h2; exact Or.inr ⟨rfl, rfl, rfl, rfl⟩)
    | (injection h with h2; subst h2;
       refine Or.inl ⟨rfl, rfl, rfl, ?_⟩;
       unfold renderedCommand;
       first
         | exact Or.inl ⟨_, by assumption, by assumption⟩
         | exact Or.inr (Or.inl ⟨_, by assumption, by assumption⟩)
         | exact Or.inr (Or.inr (Or.inl ⟨_, by assumption, by assumption⟩))
         | exact Or.inr (Or.inr (Or.inr (Or.inl ⟨_, by assumption, by assumption⟩)))
         | exact Or.inr (Or.inr (Or.inr (Or.inr ⟨_, by assumption, by assumption⟩))))

/-- `ssh` version of `sshBody_ok_inv`: any returned tuple comes through
a successful vendor lookup, whose groups witness the same shape
invariant. -/
lemma ssh_ok_inv (store : TemplateStore) (cmd s : String) (d : Device) (r : SshOut)
    (h : ssh store cmd s d = Except.ok r) :
    (∃ g, List.lookup d.vtype store = some g
      ∧ r.status = 200 ∧ r.addr = d.address ∧ r.vendor = d.vtype
      ∧ renderedCommand g cmd s d r.command)
      ∨ (r.status = 415 ∧ r.addr = d.name ∧ r.vendor = cmd ∧ r.command = s) := by
  cases hl : List.lookup d.vtype store with
  | none =>
    unfold ssh at h
    rw [hl] at h
    exact Except.noConfusion h
  | some g =>
    unfold ssh at h
    rw [hl] at h
    rcases sshBody_ok_inv g cmd s d r h with ⟨h1, h2, h3, h4⟩ | hd
    · exact Or.inl ⟨g, rfl, h1, h2, h3, h4⟩
    · exact Or.inr hd

/-- C1: the claim says an address-type query never raises and any
parsing failure becomes the "invalid IP Address" danger tuple.  The API
builder instead raises: in its `except:` handlers the error-log f-string
references the local `query`, which is unbound when the parse failed, so
`UnboundLocalError` escapes `frr` for `bgp_route`, `ping` and
`traceroute` on every unparseable target.  (The direct-command handler
logs only bound variables and does return the danger tuple.) -/
theorem frr_invalid_address_raises :
    frr "bgp_route" "not-an-ip" sampleDevice = Except.error (PyExc.unboundLocal "query")
    ∧ frr "ping" "999.999.999.999" sampleDevice = Except.error (PyExc.unboundLocal "query")
    ∧ frr "traceroute" "abc::zz" sampleDevice = Except.error (PyExc.unboundLocal "query")
    ∧ ssh sampleStore "bgp_route" "not-an-ip" sampleDevice =
        Except.ok ⟨"not-an-ip is an invalid IP Address.", code.danger,
          "router1", "bgp_route", "not-an-ip"⟩ := by decide

/-- C2: the claim says an unknown vendor type yields the "unsupported
network operating system" danger tuple.  The source builds that tuple
inside `command.__init__` and `return`s it from `__init__`; Python
rejects a non-None return from `__init__` with `TypeError`, so `ssh`
raises instead of returning the tuple, for every query type. -/
theorem ssh_unknown_vendor_raises :
    List.lookup iosDevice.vtype sampleStore = none
    ∧ ssh sampleStore "bgp_route" "1.2.3.4" iosDevice =
        Except.error (PyExc.typeError "init returned non-None")
    ∧ ssh sampleStore "bgp_community" "65000:100" iosDevice =
        Except.error (PyExc.typeError "init returned non-None") := by decide

/-- C3 counterexample: a known vendor type whose `ipv4` group lacks the
`bgp_route` entry.  The missing-template `KeyError` is swallowed by the
bare `except:` of the `bgp_route` branch and converted into the
user-facing "invalid IP Address" danger tuple, contradicting the claim
that a missing template is never converted into that result. -/
theorem ssh_missing_template_downgraded_cex :
    List.lookup sampleDevice.vtype storeEmpty = some emptyGroups
    ∧ List.lookup "bgp_route" emptyGroups.ipv4 = none
    ∧ ipNetworkVersion "10.0.0.0/8" = some IPVersion.v4
    ∧ ssh storeEmpty "bgp_route" "10.0.0.0/8" sampleDevice =
        Except.ok ⟨"10.0.0.0/8 is an invalid IP Address.", code.danger,
          "router1", "bgp_route", "10.0.0.0/8"⟩ := by decide

/-- C3 amended: a missing template entry propagates as a fatal
`KeyError` only for the `bgp_community` and `bgp_aspath` branches, whose
lookup runs outside any `try`; for `bgp_route` (and ping/traceroute)
the lookup sits inside the bare `try: ... except:` and the missing
template is converted into the "invalid IP Address" danger tuple. -/
theorem ssh_missing_template_fatal (store : TemplateStore) (g : CommandGroups)
    (s t4 t6 : String) (d : Device) (hg : List.lookup d.vtype store = some g) :
    (List.lookup "bgp_aspath" g.dual = none →
      ssh store "bgp_aspath" s d = Except.error (PyExc.keyError "bgp_aspath"))
    ∧ ((pyNewFormat s || pyThirtyTwoBit s || pyLargeCommunity s) = true →
      List.lookup "bgp_community" g.dual = none →
      ssh store "bgp_community" s d = Except.error (PyExc.keyError "bgp_community"))
    ∧ (ipNetworkVersion t4 = some IPVersion.v4 →
      (List.lookup "bgp_route" g.ipv4 = none →
        ssh store "bgp_route" t4 d = Except.ok ⟨t4 ++ " is an invalid IP Address.",
          code.danger, d.name, "bgp_route", t4⟩)
      ∧ (List.lookup "ping" g.ipv4 = none →
        ssh store "ping" t4 d = Except.ok ⟨t4 ++ " is an invalid IP Address.",
          code.danger, d.name, "ping", t4⟩)
      ∧ (List.lookup "traceroute" g.ipv4 = none →
        ssh store "traceroute" t4 d = Except.ok ⟨t4 ++ " is an invalid IP Address.",
          code.danger, d.name, "traceroute", t4⟩))
    ∧ (ipNetworkVersion t6 = some IPVersion.v6 →
      (List.lookup "bgp_route" g.ipv6 = none →
        ssh store "bgp_route" t6 d = Except.ok ⟨t6 ++ " is an invalid IP Address.",
          code.danger, d.name, "bgp_route", t6⟩)
      ∧ (List.lookup "ping" g.ipv6 = none →
        ssh store "ping" t6 d = Except.ok ⟨t6 ++ " is an invalid IP Address.",
          code.danger, d.name, "ping", t6⟩)
      ∧ (List.lookup "traceroute" g.ipv6 = none →
        ssh store "traceroute" t6 d = Except.ok ⟨t6 ++ " is an invalid IP Address.",
          code.danger, d.name, "traceroute", t6⟩)) := by
  refine ⟨fun hm => ?_, fun hacc hm => ?_,
    fun hv => ⟨fun hm => ?_, fun hm => ?_, fun hm => ?_⟩,
    fun hv => ⟨fun hm => ?_, fun hm => ?_, fun hm => ?_⟩⟩
  · rw [ssh_eq store "bgp_aspath" s d g hg]
    unfold sshBody
    simp [hm]
  · rw [ssh_eq store "bgp_community" s d g hg]
    unfold sshBody
    cases h1 : pyNewFormat s <;> cases h2 : pyThirtyTwoBit s <;>
      cases h3 : pyLargeCommunity s <;> simp [h1, h2, h3, hm] at hacc ⊢
  · rw [ssh_eq store "bgp_route" t4 d g hg]
    unfold sshBody
    simp [hv, hm]
  · rw [ssh_eq store "ping" t4 d g hg]
    unfold sshBody
    simp [hv, hm]
  · rw [ssh_eq store "traceroute" t4 d g hg]
    unfold sshBody
    simp [hv, hm]
  · rw [ssh_eq store "bgp_route" t6 d g hg]
    unfold sshBody
    simp [hv, hm]
  · rw [ssh_eq store "ping" t6 d g hg]
    unfold sshBody
    simp [hv, hm]
  · rw [ssh_eq store "traceroute" t6 d g hg]
    unfold sshBody
    simp [hv, hm]

/-- C3 witness: the amended theorem applied to a store whose vendor
entry has no templates at all, across all five query types and both
address families. -/
theorem ssh_missing_template_fatal_witness :
    ssh storeEmpty "bgp_aspath" "1:2" sampleDevice =
      Except.error (PyExc.keyError "bgp_aspath")
    ∧ ssh storeEmpty "bgp_community" "1:2" sampleDevice =
      Except.error (PyExc.keyError "bgp_community")
    ∧ ssh storeEmpty "bgp_route" "1.2.3.4" sampleDevice =
      Except.ok ⟨"1.2.3.4 is an invalid IP Address.", code.danger,
        "router1", "bgp_route", "1.2.3.4"⟩
    ∧ ssh storeEmpty "ping" "1.2.3.4" sampleDevice =
      Except.ok ⟨"1.2.3.4 is an invalid IP Address.", code.danger,
        "router1", "ping", "1.2.3.4"⟩
    ∧ ssh storeEmpty "traceroute" "1.2.3.4" sampleDevice =
      Except.ok ⟨"1.2.3.4 is an invalid IP Address.", code.danger,
        "router1", "traceroute", "1.2.3.4"⟩
    ∧ ssh storeEmpty "bgp_route" "2001:db8::1" sampleDevice =
      Except.ok ⟨"2001:db8::1 is an invalid IP Address.", code.danger,
        "router1", "bgp_route", "2001:db8::1"⟩
    ∧ ssh storeEmpty "ping" "2001:db8::1" sampleDevice =
      Except.ok ⟨"2001:db8::1 is an invalid IP Address.", code.danger,
        "router1", "ping", "2001:db8::1"⟩
    ∧ ssh storeEmpty "traceroute" "2001:db8::1" sampleDevice =
      Except.ok ⟨"2001:db8::1 is an invalid IP Address.", code.danger,
        "router1", "traceroute", "2001:db8::1"⟩ :=
  ⟨(ssh_missing_template_fatal storeEmpty emptyGroups "1:2" "1.2.3.4" "2001:db8::1"
      sampleDevice (by decide)).1 (by decide),
   (ssh_missing_template_fatal storeEmpty emptyGroups "1:2" "1.2.3.4" "2001:db8::1"
      sampleDevice (by decide)).2.1 (by decide) (by decide),
   ((ssh_missing_template_fatal storeEmpty emptyGroups "1:2" "1.2.3.4" "2001:db8::1"
      sampleDevice (by decide)).2.2.1 (by decide)).1 (by decide),
   ((ssh_missing_template_fatal storeEmpty emptyGroups "1:2" "1.2.3.4" "2001:db8::1"
      sampleDevice (by decide)).2.2.1 (by decide)).2.1 (by decide),
   ((ssh_missing_template_fatal storeEmpty emptyGroups "1:2" "1.2.3.4" "2001:db8::1"
      sampleDevice (by decide)).2.2.1 (by decide)).2.2 (by decide),
   ((ssh_missing_template_fatal storeEmpty emptyGroups "1:2" "1.2.3.4" "2001:db8::1"
      sampleDevice (by decide)).2.2.2 (by decide)).1 (by decide),
   ((ssh_missing_template_fatal storeEmpty emptyGroups "1:2" "1.2.3.4" "2001:db8::1"
      sampleDevice (by decide)).2.2.2 (by decide)).2.1 (by decide),
   ((ssh_missing_template_fatal storeEmpty emptyGroups "1:2" "1.2.3.4" "2001:db8::1"
      sampleDevice (by decide)).2.2.2 (by decide)).2.2 (by decide)⟩

/-- C4 counterexample: on the invalid-community failure branch the
direct-command builder returns the device NAME in the third slot, the
query type in the fourth and the raw target in the fifth — not the
device address, vendor type and rendered command the claim requires for
every branch. -/
theorem ssh_failure_tuple_slots_cex :
    ssh sampleStore "bgp_community" "x:y" sampleDevice =
      Except.ok ⟨"x:y is an invalid BGP Community Format.", code.danger,
        "router1", "bgp_community", "x:y"⟩
    ∧ sampleDevice.address ≠ "router1" := by decide

/-- C4 amended: every tuple actually returned by the API builder does
carry the device address third; in direct-command mode that holds on the
success branches, where the fourth slot is the vendor type and the fifth
the rendered command (the substitution of the target and, where
applicable, the matching source address into the vendor's template for
the query type), while the reachable failure branches return the device
name third, the query type fourth and the raw target fifth. -/
theorem builders_tuple_fields (store : TemplateStore) (cmd s : String) (d : Device) :
    (∀ r : FrrOut, frr cmd s d = Except.ok r → r.addr = d.address)
    ∧ (∀ r : SshOut, ssh store cmd s d = Except.ok r →
        (r.status = code.success → r.addr = d.address ∧ r.vendor = d.vtype
          ∧ ∃ g, List.lookup d.vtype store = some g
              ∧ renderedCommand g cmd s d r.command)
        ∧ (r.status = code.danger → r.addr = d.name ∧ r.vendor = cmd ∧ r.command = s)) := by
  constructor
  · intro r h
    exact (frr_ok_inv cmd s d r h).2
  · intro r h
    rcases ssh_ok_inv store cmd s d r h with ⟨g, hl, hs, ha, hv, hr⟩ | ⟨hs, ha, hv, hc⟩
    · exact ⟨fun _ => ⟨ha, hv, g, hl, hr⟩, fun hd => absurd (hs.symm.trans hd) (by decide)⟩
    · exact ⟨fun hok => absurd (hs.symm.trans hok) (by decide), fun _ => ⟨ha, hv, hc⟩⟩

/-- C4 witness: the amended theorem at a concrete failure tuple and at a
concrete success tuple. -/
theorem builders_tuple_fields_witness :
    (c4out.addr = sampleDevice.name
      ∧ c4out.vendor = "bgp_community" ∧ c4out.command = "abc")
    ∧ (c4ok.addr = sampleDevice.address ∧ c4ok.vendor = sampleDevice.vtype
      ∧ ∃ g, List.lookup sampleDevice.vtype sampleStore = some g
          ∧ renderedCommand g "bgp_route" "1.2.3.4" sampleDevice c4ok.command) :=
  ⟨((builders_tuple_fields sampleStore "bgp_community" "abc" sampleDevice).2
      c4out (by decide)).2 (by decide),
   ((builders_tuple_fields sampleStore "bgp_route" "1.2.3.4" sampleDevice).2
      c4ok (by decide)).1 (by decide)⟩

/-- C5 counterexample: `re.match` with a `$` anchor also matches just
before a single trailing newline, so the target `1:2` followed by a
newline is accepted via the new-format rule although it matches none of
the three community syntaxes as stated (its second group is not a digit
run). -/
theorem bgp_community_trailing_newline_cex :
    frr "bgp_community" "1:2\n" sampleDevice =
      Except.ok ⟨"1:2\n matched new-format community.", code.success, "10.0.0.1",
        ⟨"bgp_community", "dual", "1:2\n", none⟩⟩
    ∧ communityMatch "1:2\n".data = false := by decide

/-- C5 amended: a community target is accepted exactly when the target
itself, or the target with its single trailing newline removed, matches
one of the three community syntaxes; the priority order stands (a
new-format match wins and reports the new-format message, so
`65000:100` matches via the new-format rule); every non-matching target
yields the danger tuple with the "invalid BGP Community Format."
message in both builders. -/
theorem bgp_community_classification (s : String) (d : Device) (store : TemplateStore)
    (g : CommandGroups) (mc cstr : String)
    (hg : List.lookup d.vtype store = some g) :
    ((pyNewFormat s || pyThirtyTwoBit s || pyLargeCommunity s)
        = (communityMatch s.data || (endsNL s.data && communityMatch s.data.dropLast)))
    ∧ statusOf (frr "bgp_community" s d)
        = some (if communityMatch s.data || (endsNL s.data && communityMatch s.data.dropLast)
                then code.success else code.danger)
    ∧ (newFormatCore s.data = true →
        frr "bgp_community" s d = Except.ok ⟨s ++ " matched new-format community.",
          code.success, d.address, ⟨"bgp_community", "dual", s, none⟩⟩)
    ∧ ((communityMatch s.data || (endsNL s.data && communityMatch s.data.dropLast)) = false →
        frr "bgp_community" s d = Except.ok ⟨s ++ " is an invalid BGP Community Format.",
          code.danger, d.address, ⟨"bgp_community", "dual", s, none⟩⟩
        ∧ ssh store "bgp_community" s d = Except.ok ⟨s ++ " is an invalid BGP Community Format.",
          code.danger, d.name, "bgp_community", s⟩)
    ∧ (pyNewFormat s = true → List.lookup "bgp_community" g.dual = some mc →
        pyFormat mc [("target", s)] = Except.ok cstr →
        ssh store "bgp_community" s d = Except.ok ⟨s ++ " matched new-format community.",
          code.success, d.address, d.vtype, cstr⟩) := by
  have hb : (communityMatch s.data || (endsNL s.data && communityMatch s.data.dropLast))
      = (pyNewFormat s || pyThirtyTwoBit s || pyLargeCommunity s) :=
    (matchEOL_or3 newFormatCore thirtyTwoBitCore largeCommunityCore s.data).symm
  refine ⟨hb.symm, ?_, ?_, ?_, ?_⟩
  · rw [hb, frr_community_eq]
    cases h1 : pyNewFormat s <;> cases h2 : pyThirtyTwoBit s <;>
      cases h3 : pyLargeCommunity s <;> simp [h1, h2, h3, statusOf]
  · intro hn
    have h1 : pyNewFormat s = true := by simp [pyNewFormat, matchEOL, hn]
    rw [frr_community_eq]
    simp [h1]
  · intro hacc
    rw [hb] at hacc
    simp only [Bool.or_eq_false_iff] at hacc
    constructor
    · rw [frr_community_eq]
      simp [hacc.1.1, hacc.1.2, hacc.2]
    · rw [ssh_eq store "bgp_community" s d g hg]
      unfold sshBody
      simp [hacc.1.1, hacc.1.2, hacc.2]
  · intro h1 hmc hfmt
    rw [ssh_eq store "bgp_community" s d g hg]
    unfold sshBody
    simp [h1, hmc, hfmt]

/-- C5 witness: the spec's own example, community `65000:100`, accepted
through the new-format rule. -/
theorem bgp_community_classification_witness :
    newFormatCore "65000:100".data = true
    ∧ frr "bgp_community" "65000:100" sampleDevice =
        Except.ok ⟨"65000:100 matched new-format community.", code.success,
          sampleDevice.address, ⟨"bgp_community", "dual", "65000:100", none⟩⟩ :=
  ⟨by decide,
   (bgp_community_classification "65000:100" sampleDevice sampleStore frrGroups
      "show bgp community {target}" "show bgp community 65000:100"
      (by decide)).2.2.1 (by decide)⟩

/-- C6 counterexample: the AS-path pattern is `.*`, which also matches
the empty string, so the empty target is accepted with a success
result — the claim's only failure case does not fail. -/
theorem bgp_aspath_empty_accepted_cex :
    frr "bgp_aspath" "" sampleDevice =
      Except.ok ⟨" matched AS_PATH regex.", code.success, "10.0.0.1",
        ⟨"bgp_aspath", "dual", "", none⟩⟩ := by decide

/-- C6 amended: `bgp_aspath` accepts every target, the empty string
included, with family tag `dual`; the invalid branch of the source is
unreachable (`re.match(".*", s)` succeeds for every `s`). -/
theorem bgp_aspath_accepts_every_string (s : String) (d : Device) (store : TemplateStore)
    (g : CommandGroups) (mc cstr : String)
    (hg : List.lookup d.vtype store = some g) :
    frr "bgp_aspath" s d = Except.ok ⟨s ++ " matched AS_PATH regex.", code.success,
      d.address, ⟨"bgp_aspath", "dual", s, none⟩⟩
    ∧ (List.lookup "bgp_aspath" g.dual = some mc →
        pyFormat mc [("target", s)] = Except.ok cstr →
        ssh store "bgp_aspath" s d = Except.ok ⟨s ++ " matched AS_PATH regex.",
          code.success, d.address, d.vtype, cstr⟩) := by
  refine ⟨frr_aspath_eq s d, fun hmc hfmt => ?_⟩
  rw [ssh_eq store "bgp_aspath" s d g hg]
  unfold sshBody
  simp [hmc, hfmt]

/-- C6 witness: the amended theorem at the empty target. -/
theorem bgp_aspath_accepts_every_string_witness :
    ssh sampleStore "bgp_aspath" "" sampleDevice =
      Except.ok ⟨" matched AS_PATH regex.", code.success, "10.0.0.1",
        "frr", "show bgp regexp "⟩ :=
  (bgp_aspath_accepts_every_string "" sampleDevice sampleStore frrGroups
    "show bgp regexp {target}" "show bgp regexp " (by decide)).2 (by decide) (by decide)

/-- C7: for an unrecognized query type the direct-command builder does
return the "Command ... not found." danger tuple, but the API builder
raises `UnboundLocalError`: its final `else` logs an f-string that
references the never-assigned local `query` before the `return`. -/
theorem unknown_command_results :
    frr "bgp_dampening" "8.8.8.8" sampleDevice = Except.error (PyExc.unboundLocal "query")
    ∧ ssh sampleStore "bgp_dampening" "8.8.8.8" sampleDevice =
        Except.ok ⟨"Command bgp_dampening not found.", code.danger,
          "router1", "bgp_dampening", "8.8.8.8"⟩ := by decide

/-- C8: for every target the address parser classifies as IPv4 or IPv6,
`bgp_route` returns success with the matching family tag, and the API
builder's ping/traceroute query object carries that family tag together
with the device's source address of the same family. -/
theorem bgp_route_ping_traceroute_family (s : String) (d : Device) :
    (ipNetworkVersion s = some IPVersion.v4 →
      frr "bgp_route" s d = Except.ok ⟨s ++ " is a valid IPv4 Adddress.", code.success,
        d.address, ⟨"bgp_route", "ipv4", s, none⟩⟩
      ∧ frr "ping" s d = Except.ok ⟨s ++ " is a valid IPv4 Adddress.", code.success,
        d.address, ⟨"ping", "ipv4", s, some d.src_addr_ipv4⟩⟩
      ∧ frr "traceroute" s d = Except.ok ⟨s ++ " is a valid IPv4 Adddress.", code.success,
        d.address, ⟨"traceroute", "ipv4", s, some d.src_addr_ipv4⟩⟩)
    ∧ (ipNetworkVersion s = some IPVersion.v6 →
      frr "bgp_route" s d = Except.ok ⟨s ++ " is a valid IPv6 Adddress.", code.success,
        d.address, ⟨"bgp_route", "ipv6", s, none⟩⟩
      ∧ frr "ping" s d = Except.ok ⟨s ++ " is a valid IPv6 Adddress.", code.success,
        d.address, ⟨"ping", "ipv6", s, some d.src_addr_ipv6⟩⟩
      ∧ frr "traceroute" s d = Except.ok ⟨s ++ " is a valid IPv6 Adddress.", code.success,
        d.address, ⟨"traceroute", "ipv6", s, some d.src_addr_ipv6⟩⟩) := by
  constructor <;> intro h
  · exact ⟨by rw [frr_route_eq, h], by rw [frr_ping_eq, h], by rw [frr_traceroute_eq, h]⟩
  · exact ⟨by rw [frr_route_eq, h], by rw [frr_ping_eq, h], by rw [frr_traceroute_eq, h]⟩

/-- C8 witness: the spec's own example: a traceroute to `2001:db8::1`
from a device whose IPv6 source address is `2001:db8::ff`. -/
theorem bgp_route_ping_traceroute_family_witness :
    ipNetworkVersion "2001:db8::1" = some IPVersion.v6
    ∧ frr "traceroute" "2001:db8::1" sampleDevice =
        Except.ok ⟨"2001:db8::1 is a valid IPv6 Adddress.", code.success,
          sampleDevice.address, ⟨"traceroute", "ipv6", "2001:db8::1", some "2001:db8::ff"⟩⟩ :=
  ⟨by decide,
   ((bgp_route_ping_traceroute_family "2001:db8::1" sampleDevice).2 (by decide)).2.2⟩

/-- C9: both builders are pure functions of their inputs in this
embedding — the source reads its device record, template store and
target and mutates nothing — so two invocations on identical inputs
return identical results. -/
theorem builders_deterministic (store : TemplateStore) (cmd s : String) (d : Device) :
    frr cmd s d = frr cmd s d ∧ ssh store cmd s d = ssh store cmd s d :=
  ⟨rfl, rfl⟩

/-- C10: every tuple either builder actually returns carries status 200
(`code.success`) or 415 (`code.danger`); the warning constant 405,
though defined, is never returned. -/
theorem status_codes_invariant (store : TemplateStore) (cmd s : String) (d : Device) :
    code.warning = 405
    ∧ (∀ r : FrrOut, frr cmd s d = Except.ok r →
        (r.status = code.success ∨ r.status = code.danger) ∧ r.status ≠ code.warning)
    ∧ (∀ r : SshOut, ssh store cmd s d = Except.ok r →
        (r.status = code.success ∨ r.status = code.danger) ∧ r.status ≠ code.warning) := by
  refine ⟨rfl, fun r h => ?_, fun r h => ?_⟩
  · rcases (frr_ok_inv cmd s d r h).1 with hs | hs
    · exact ⟨Or.inl hs, by rw [hs]; decide⟩
    · exact ⟨Or.inr hs, by rw [hs]; decide⟩
  · rcases ssh_ok_inv store cmd s d r h with ⟨-, -, hs, -, -, -⟩ | ⟨hs, -, -, -⟩
    · exact ⟨Or.inl hs, by rw [hs]; decide⟩
    · exact ⟨Or.inr hs, by rw [hs]; decide⟩

/-- C10 witness: the invariant applied at a concrete returned tuple. -/
theorem status_codes_invariant_witness :
    (c10out.status = code.success ∨ c10out.status = code.danger)
    ∧ c10out.status ≠ code.warning :=
  (status_codes_invariant sampleStore "bgp_community" "1:2" sampleDevice).2.1
    c10out (by decide)
